import Mathlib

/-!
Shallow embedding of the sdl_wrapper library (SDL2 / SDL_image / SDL_ttf
resource-management veneer).

Modelling conventions:
- Native pointers are `Handle := Nat`, with `0` standing for a null pointer.
- The native library is mocked by `MockLib`: each native call returns the
  configured value, and the subsystem last-error string is `lastError`.
- Observable side effects (quit, destroy, free, close, lock, unlock calls)
  are threaded explicitly through a `SideEffects` record.
- A C++ `throw std::runtime_error(msg)` becomes `Except.error ⟨kind, msg⟩`,
  where `kind` classifies the throw site (initialization / resource creation /
  forwarded operation / lock) following the error taxonomy of the design.
- C++ object destruction becomes an explicit `destructor` function applied to
  the wrapper value and the current side-effect state.
-/

namespace SdlWrapper

abbrev Handle := Nat

structure SDL_Color where
  r : Nat
  g : Nat
  b : Nat
  a : Nat
  deriving Repr, DecidableEq

structure SDL_Rect where
  x : Int
  y : Int
  w : Int
  h : Int
  deriving Repr, DecidableEq

/-- TTFFont::GlyphMetrics (part_000 lines 44-46): plain data, five int fields. -/
structure TTFFont.GlyphMetrics where
  minx : Int
  maxx : Int
  miny : Int
  maxy : Int
  advance : Int
  deriving Repr, DecidableEq

/-- Mocked native library: the value each native call returns, plus the
subsystem last-error string reported by SDL_GetError / IMG_GetError /
TTF_GetError. A `Handle` result of `0` is the null-pointer failure sentinel;
a negative `Int` result is the status-code failure sentinel. -/
structure MockLib where
  sdlInitResult : Int
  imgInitResult : Nat
  ttfInitResult : Int
  openFontResult : Handle
  loadBMPResult : Handle
  imgLoadResult : Handle
  createRGBSurfaceResult : Handle
  createWindowResult : Handle
  createRendererResult : Handle
  createTextureResult : Handle
  createTextureFromSurfaceResult : Handle
  getWindowSurfaceResult : Handle
  renderGlyphSolidResult : Handle
  renderGlyphBlendedResult : Handle
  glyphMetricsResult : Int
  glyphMetricsOut : TTFFont.GlyphMetrics
  fontLineSkip : Int
  fontAscent : Int
  fontDescent : Int
  fontHeight : Int
  lockSurfaceResult : Int
  setViewportResult : Int
  opStatusResult : Int
  queryFormat : Nat
  queryAccess : Int
  queryW : Int
  queryH : Int
  lastError : String
  deriving Repr, DecidableEq

/-- Baseline mock: every native call succeeds, every factory returns handle 1. -/
def defaultLib : MockLib where
  sdlInitResult := 0
  imgInitResult := 2
  ttfInitResult := 0
  openFontResult := 1
  loadBMPResult := 1
  imgLoadResult := 1
  createRGBSurfaceResult := 1
  createWindowResult := 1
  createRendererResult := 1
  createTextureResult := 1
  createTextureFromSurfaceResult := 1
  getWindowSurfaceResult := 1
  renderGlyphSolidResult := 1
  renderGlyphBlendedResult := 1
  glyphMetricsResult := 0
  glyphMetricsOut := ⟨0, 0, 0, 0, 0⟩
  fontLineSkip := 0
  fontAscent := 0
  fontDescent := 0
  fontHeight := 0
  lockSurfaceResult := 0
  setViewportResult := 0
  opStatusResult := 0
  queryFormat := 0
  queryAccess := 0
  queryW := 0
  queryH := 0
  lastError := ""

/-- Observable calls made into the native library that release or lock
resources: quit counters per subsystem and, per destroy routine, the list of
handles it was invoked on (in order). -/
structure SideEffects where
  sdlQuitCalls : Nat
  imgQuitCalls : Nat
  ttfQuitCalls : Nat
  freeSurfaceCalls : List Handle
  destroyTextureCalls : List Handle
  destroyRendererCalls : List Handle
  destroyWindowCalls : List Handle
  closeFontCalls : List Handle
  lockSurfaceCalls : List Handle
  unlockSurfaceCalls : List Handle
  deriving Repr, DecidableEq

def SideEffects.empty : SideEffects :=
  ⟨0, 0, 0, [], [], [], [], [], [], []⟩

/-- Error taxonomy of the design: the layer throws at initialization sites,
resource-creation sites, forwarded-operation sites and lock sites. -/
inductive ErrorKind where
  | initializationError
  | resourceCreationError
  | operationError
  | lockError
  deriving Repr, DecidableEq

structure SDLError where
  kind : ErrorKind
  message : String
  deriving Repr, DecidableEq

/-- Substring containment, used to state that an error message preserves the
native diagnostic text. -/
def containsText (s sub : String) : Prop :=
  List.IsInfix sub.data s.data

instance (s sub : String) : Decidable (containsText s sub) :=
  inferInstanceAs (Decidable (List.IsInfix sub.data s.data))

theorem containsText_of_append (d e : String) : containsText (d ++ e) e :=
  ⟨d.data, [], by simp⟩

/- Mocked native calls (pure queries of the mock). -/

def SDL_GetError (lib : MockLib) : String := lib.lastError

def IMG_GetError (lib : MockLib) : String := lib.lastError

def TTF_GetError (lib : MockLib) : String := lib.lastError

def SDL_Init (lib : MockLib) : Int := lib.sdlInitResult

def IMG_Init (lib : MockLib) (_flags : Nat) : Nat := lib.imgInitResult

def TTF_Init (lib : MockLib) : Int := lib.ttfInitResult

def TTF_OpenFont (lib : MockLib) (_file : String) (_ptsize : Int) : Handle :=
  lib.openFontResult

def SDL_LoadBMP (lib : MockLib) (_file : String) : Handle := lib.loadBMPResult

def IMG_Load (lib : MockLib) (_file : String) : Handle := lib.imgLoadResult

def SDL_CreateRGBSurface (lib : MockLib) (_flags : Nat)
    (_width _height _depth : Int) (_r_mask _g_mask _b_mask _a_mask : Nat) :
    Handle :=
  lib.createRGBSurfaceResult

def SDL_CreateWindow (lib : MockLib) (_title : String) (_width _height : Int)
    (_flags : Nat) : Handle :=
  lib.createWindowResult

def SDL_CreateRenderer (lib : MockLib) (_window : Handle) (_index : Int)
    (_flags : Nat) : Handle :=
  lib.createRendererResult

def SDL_CreateTexture (lib : MockLib) (_renderer : Handle) (_format : Nat)
    (_access _w _h : Int) : Handle :=
  lib.createTextureResult

def SDL_CreateTextureFromSurface (lib : MockLib) (_renderer _surface : Handle) :
    Handle :=
  lib.createTextureFromSurfaceResult

def SDL_GetWindowSurface (lib : MockLib) (_window : Handle) : Handle :=
  lib.getWindowSurfaceResult

def TTF_RenderGlyph_Solid (lib : MockLib) (_font : Handle) (_ch : Nat)
    (_fg : SDL_Color) : Handle :=
  lib.renderGlyphSolidResult

def TTF_RenderGlyph_Blended (lib : MockLib) (_font : Handle) (_ch : Nat)
    (_fg : SDL_Color) : Handle :=
  lib.renderGlyphBlendedResult

/-- TTF_GlyphMetrics: status code, plus the five values the library writes
through the out pointers. -/
def TTF_GlyphMetrics (lib : MockLib) (_font : Handle) (_ch : Nat) :
    Int × TTFFont.GlyphMetrics :=
  (lib.glyphMetricsResult, lib.glyphMetricsOut)

def TTF_FontLineSkip (lib : MockLib) (_font : Handle) : Int := lib.fontLineSkip

def TTF_FontAscent (lib : MockLib) (_font : Handle) : Int := lib.fontAscent

def TTF_FontDescent (lib : MockLib) (_font : Handle) : Int := lib.fontDescent

def TTF_FontHeight (lib : MockLib) (_font : Handle) : Int := lib.fontHeight

def SDL_RenderSetViewport (lib : MockLib) (_renderer : Handle)
    (_rect : Option SDL_Rect) : Int :=
  lib.setViewportResult

def SDL_RenderClear (lib : MockLib) (_renderer : Handle) : Int :=
  lib.opStatusResult

def SDL_RenderPresent (_lib : MockLib) (_renderer : Handle) : Unit := ()

def SDL_SetRenderDrawColor (lib : MockLib) (_renderer : Handle)
    (_r _g _b _a : Nat) : Int :=
  lib.opStatusResult

def SDL_RenderDrawLine (lib : MockLib) (_renderer : Handle)
    (_x1 _y1 _x2 _y2 : Int) : Int :=
  lib.opStatusResult

def SDL_RenderDrawRect (lib : MockLib) (_renderer : Handle)
    (_rect : Option SDL_Rect) : Int :=
  lib.opStatusResult

def SDL_SetRenderTarget (lib : MockLib) (_renderer _texture : Handle) : Int :=
  lib.opStatusResult

def SDL_RenderSetLogicalSize (lib : MockLib) (_renderer : Handle)
    (_w _h : Int) : Int :=
  lib.opStatusResult

def SDL_RenderCopy (lib : MockLib) (_renderer _texture : Handle)
    (_srcrect _dstrect : Option SDL_Rect) : Int :=
  lib.opStatusResult

def SDL_BlitSurface (lib : MockLib) (_src : Handle) (_srcrect : Option SDL_Rect)
    (_dst : Handle) (_dstrect : Option SDL_Rect) : Int :=
  lib.opStatusResult

def SDL_UpdateWindowSurface (lib : MockLib) (_window : Handle) : Int :=
  lib.opStatusResult

def SDL_QueryTexture (lib : MockLib) (_texture : Handle) :
    Int × (Nat × Int × Int × Int) :=
  (lib.opStatusResult, (lib.queryFormat, lib.queryAccess, lib.queryW, lib.queryH))

def SDL_SetHint (_lib : MockLib) (_name _value : String) : Bool := true

/- Mocked native calls with tracked side effects. -/

def SDL_Quit (fx : SideEffects) : SideEffects :=
  { fx with sdlQuitCalls := fx.sdlQuitCalls + 1 }

def IMG_Quit (fx : SideEffects) : SideEffects :=
  { fx with imgQuitCalls := fx.imgQuitCalls + 1 }

def TTF_Quit (fx : SideEffects) : SideEffects :=
  { fx with ttfQuitCalls := fx.ttfQuitCalls + 1 }

def SDL_FreeSurface (h : Handle) (fx : SideEffects) : SideEffects :=
  { fx with freeSurfaceCalls := fx.freeSurfaceCalls ++ [h] }

def SDL_DestroyTexture (h : Handle) (fx : SideEffects) : SideEffects :=
  { fx with destroyTextureCalls := fx.destroyTextureCalls ++ [h] }

def SDL_DestroyRenderer (h : Handle) (fx : SideEffects) : SideEffects :=
  { fx with destroyRendererCalls := fx.destroyRendererCalls ++ [h] }

def SDL_DestroyWindow (h : Handle) (fx : SideEffects) : SideEffects :=
  { fx with destroyWindowCalls := fx.destroyWindowCalls ++ [h] }

def TTF_CloseFont (h : Handle) (fx : SideEffects) : SideEffects :=
  { fx with closeFontCalls := fx.closeFontCalls ++ [h] }

/-- SDL_LockSurface: records the lock attempt on the handle and reports the
configured status (0 = success). -/
def SDL_LockSurface (lib : MockLib) (h : Handle) (fx : SideEffects) :
    Int × SideEffects :=
  (lib.lockSurfaceResult,
    { fx with lockSurfaceCalls := fx.lockSurfaceCalls ++ [h] })

def SDL_UnlockSurface (h : Handle) (fx : SideEffects) : SideEffects :=
  { fx with unlockSurfaceCalls := fx.unlockSurfaceCalls ++ [h] }

/- Guard classes.
Construction threads the side-effect state (unchanged: the constructor bodies
only call the init routine, which releases nothing); destruction calls the
paired quit routine. A C++ destructor never runs for an object whose
constructor threw, so a failed construction is modelled by the `.error`
result carrying the unchanged state and no destructor applicable to it. -/

/-- SDL guard (ttf_wrapper.hpp lines 154-175). -/
structure SDL where
  deriving Repr, DecidableEq

/-- SDL::SDL() (ttf_wrapper.hpp lines 159-163): throws "SDL uninitialized"
when SDL_Init(SDL_INIT_VIDEO) is negative. Note the message carries no
SDL_GetError text. -/
def SDL.construct (lib : MockLib) (fx : SideEffects) :
    Except SDLError SDL × SideEffects :=
  if SDL_Init lib < 0 then
    (.error ⟨.initializationError, "SDL uninitialized"⟩, fx)
  else
    (.ok ⟨⟩, fx)

/-- SDL::~SDL() (ttf_wrapper.hpp lines 164-166): unconditional SDL_Quit(). -/
def SDL.destructor (_ : SDL) (fx : SideEffects) : SideEffects :=
  SDL_Quit fx

def SDL.set_hint (_ : SDL) (lib : MockLib) (name value : String) : Bool :=
  SDL_SetHint lib name value

def IMG_INIT_PNG : Nat := 2

/-- SDL_IMG guard (ttf_wrapper.hpp lines 181-196). -/
structure SDL_IMG where
  deriving Repr, DecidableEq

/-- SDL_IMG::SDL_IMG() (ttf_wrapper.hpp lines 186-192): fails when
!(IMG_Init(flags) & flags), i.e. the bitwise AND is zero. -/
def SDL_IMG.construct (lib : MockLib) (fx : SideEffects) :
    Except SDLError SDL_IMG × SideEffects :=
  let flags := IMG_INIT_PNG
  if (IMG_Init lib flags).land flags = 0 then
    (.error ⟨.initializationError,
      "IMG_Init failed! IMG_GetError: " ++ IMG_GetError lib⟩, fx)
  else
    (.ok ⟨⟩, fx)

/-- SDL_IMG::~SDL_IMG() (ttf_wrapper.hpp lines 193-195): unconditional
IMG_Quit(). -/
def SDL_IMG.destructor (_ : SDL_IMG) (fx : SideEffects) : SideEffects :=
  IMG_Quit fx

/-- SDLTTF guard (part_000 lines 148-179, the canonical variant). -/
structure SDLTTF where
  deriving Repr, DecidableEq

/-- SDLTTF::SDLTTF() (part_000 lines 153-157): throws when TTF_Init() is
negative, with a message that appends TTF_GetError() to a fixed head. -/
def SDLTTF.construct (lib : MockLib) (fx : SideEffects) :
    Except SDLError SDLTTF × SideEffects :=
  if TTF_Init lib < 0 then
    (.error ⟨.initializationError,
      "Can\x27t init TTF! TTF_Error: " ++ TTF_GetError lib⟩, fx)
  else
    (.ok ⟨⟩, fx)

/-- SDLTTF::~SDLTTF() (part_000 lines 158-160): unconditional TTF_Quit(). -/
def SDLTTF.destructor (_ : SDLTTF) (fx : SideEffects) : SideEffects :=
  TTF_Quit fx

/- Owned-wrapper classes. Each holds one handle in a unique_ptr with a
null-checking deleter; the wrapper destructor applies the deleter to the held
handle. -/

/-- SDLSurface (ttf_wrapper.hpp lines 201-309): owns one SDL_Surface handle. -/
structure SDLSurface where
  m_surface : Handle
  deriving Repr, DecidableEq

/-- SDLSurface::Deleter (ttf_wrapper.hpp lines 204-214): returns without
calling SDL_FreeSurface when the pointer is null. -/
def SDLSurface.Deleter (t : Handle) (fx : SideEffects) : SideEffects :=
  if t = 0 then fx else SDL_FreeSurface t fx

/-- Destruction of an SDLSurface: the unique_ptr member applies the Deleter
to the held handle. -/
def SDLSurface.destructor (s : SDLSurface) (fx : SideEffects) : SideEffects :=
  SDLSurface.Deleter s.m_surface fx

/-- SDLSurface parameter constructor (ttf_wrapper.hpp lines 225-240): resets
the member to the SDL_CreateRGBSurface result and throws if it is null. -/
def SDLSurface.createRGBSurface (lib : MockLib) (flags : Nat)
    (width height depth : Int) (r_mask g_mask b_mask a_mask : Nat) :
    Except SDLError SDLSurface :=
  let h := SDL_CreateRGBSurface lib flags width height depth
    r_mask g_mask b_mask a_mask
  if h = 0 then
    .error ⟨.resourceCreationError,
      "SDL_CreateRGBSurface failed! SDL_Error: " ++ SDL_GetError lib⟩
  else
    .ok ⟨h⟩

/-- SDLSurface::from_bmp (ttf_wrapper.hpp lines 247-255). -/
def SDLSurface.from_bmp (lib : MockLib) (file : String) :
    Except SDLError SDLSurface :=
  let bmp := SDL_LoadBMP lib file
  if bmp = 0 then
    .error ⟨.resourceCreationError,
      "SDL_LoadBMP failed! SDL_Error: " ++ SDL_GetError lib⟩
  else
    .ok ⟨bmp⟩

/-- SDLSurface::from_image (ttf_wrapper.hpp lines 260-268). -/
def SDLSurface.from_image (lib : MockLib) (file : String) :
    Except SDLError SDLSurface :=
  let img := IMG_Load lib file
  if img = 0 then
    .error ⟨.resourceCreationError,
      "IMG_Load failed! IMG_Error: " ++ IMG_GetError lib⟩
  else
    .ok ⟨img⟩

/-- SDLSurface::blit_to (ttf_wrapper.hpp lines 273-275): forwards to
SDL_BlitSurface and discards its status; it cannot fail. -/
def SDLSurface.blit_to (s : SDLSurface) (lib : MockLib)
    (destination : SDLSurface) : Except SDLError Unit :=
  let _ := SDL_BlitSurface lib s.m_surface none destination.m_surface none
  .ok ()

/-- SDLSurface::lock (ttf_wrapper.hpp lines 281-285): throws a LockError when
SDL_LockSurface reports a nonzero status. -/
def SDLSurface.lock (s : SDLSurface) (lib : MockLib) (fx : SideEffects) :
    Except SDLError Unit × SideEffects :=
  let (r, fx) := SDL_LockSurface lib s.m_surface fx
  if r ≠ 0 then
    (.error ⟨.lockError,
      "SDL_LockSurface failed! SDL_Error: " ++ SDL_GetError lib⟩, fx)
  else
    (.ok (), fx)

/-- SDLSurface::unlock (ttf_wrapper.hpp lines 291-293): unconditional
forwarding, cannot fail. -/
def SDLSurface.unlock (s : SDLSurface) (fx : SideEffects) : SideEffects :=
  SDL_UnlockSurface s.m_surface fx

/-- SDLSurface::try_lock (ttf_wrapper.hpp lines 299-301): performs the same
native lock call and returns whether it succeeded, raising nothing. -/
def SDLSurface.try_lock (s : SDLSurface) (lib : MockLib) (fx : SideEffects) :
    Bool × SideEffects :=
  let (r, fx) := SDL_LockSurface lib s.m_surface fx
  (r == 0, fx)

/-- SDLSurface::get (ttf_wrapper.hpp lines 306-308): returns the raw held
handle, leaving ownership with the wrapper. -/
def SDLSurface.get (s : SDLSurface) : Handle :=
  s.m_surface

/-- SDLTexture (ttf_wrapper.hpp lines 314-345): owns one SDL_Texture handle;
move-only (defaulted move constructor and move assignment). -/
structure SDLTexture where
  m_texture : Handle
  deriving Repr, DecidableEq

/-- SDLTexture::Deleter (ttf_wrapper.hpp lines 316-326). -/
def SDLTexture.Deleter (t : Handle) (fx : SideEffects) : SideEffects :=
  if t = 0 then fx else SDL_DestroyTexture t fx

def SDLTexture.destructor (t : SDLTexture) (fx : SideEffects) : SideEffects :=
  SDLTexture.Deleter t.m_texture fx

/-- SDLTexture(SDLTexture&&) = default (ttf_wrapper.hpp line 335): the
destination steals the unique_ptr and the source is left holding null.
Returns (destination, source after the move). -/
def SDLTexture.moveCtor (t : SDLTexture) : SDLTexture × SDLTexture :=
  (⟨t.m_texture⟩, ⟨0⟩)

/-- SDLTexture::query (ttf_wrapper.hpp lines 342-344): forwards to
SDL_QueryTexture, discarding its status; returns the values the library
wrote through the out pointers. -/
def SDLTexture.query (t : SDLTexture) (lib : MockLib) :
    Nat × Int × Int × Int :=
  (SDL_QueryTexture lib t.m_texture).2

/-- SDLRenderer (ttf_wrapper.hpp lines 350-463): owns one SDL_Renderer
handle; move-only (defaulted move constructor and move assignment). -/
structure SDLRenderer where
  m_renderer : Handle
  deriving Repr, DecidableEq

/-- SDLRenderer::Deleter (ttf_wrapper.hpp lines 351-361). -/
def SDLRenderer.Deleter (r : Handle) (fx : SideEffects) : SideEffects :=
  if r = 0 then fx else SDL_DestroyRenderer r fx

def SDLRenderer.destructor (r : SDLRenderer) (fx : SideEffects) :
    SideEffects :=
  SDLRenderer.Deleter r.m_renderer fx

/-- SDLRenderer(SDLRenderer&& other) = default (ttf_wrapper.hpp line 372). -/
def SDLRenderer.moveCtor (r : SDLRenderer) : SDLRenderer × SDLRenderer :=
  (⟨r.m_renderer⟩, ⟨0⟩)

/-- SDLRenderer::clear (ttf_wrapper.hpp lines 378-380): forwards to
SDL_RenderClear, discarding its status; cannot fail. -/
def SDLRenderer.clear (r : SDLRenderer) (lib : MockLib) :
    Except SDLError Unit :=
  let _ := SDL_RenderClear lib r.m_renderer
  .ok ()

/-- SDLRenderer::present (ttf_wrapper.hpp lines 385-387). -/
def SDLRenderer.present (r : SDLRenderer) (lib : MockLib) :
    Except SDLError Unit :=
  let _ := SDL_RenderPresent lib r.m_renderer
  .ok ()

/-- SDLRenderer::create_texture (ttf_wrapper.hpp lines 392-394): wraps the
SDL_CreateTexture result unconditionally, with no null check. -/
def SDLRenderer.create_texture (r : SDLRenderer) (lib : MockLib)
    (format : Nat) (access w h : Int) : SDLTexture :=
  SDLTexture.mk (SDL_CreateTexture lib r.m_renderer format access w h)

/-- SDLRenderer::create_texture_from_surface (ttf_wrapper.hpp lines 399-401):
wraps the SDL_CreateTextureFromSurface result unconditionally. -/
def SDLRenderer.create_texture_from_surface (r : SDLRenderer) (lib : MockLib)
    (surface : SDLSurface) : SDLTexture :=
  SDLTexture.mk (SDL_CreateTextureFromSurface lib r.m_renderer
    surface.m_surface)

/-- SDLRenderer::set_logical_size (ttf_wrapper.hpp lines 407-409). -/
def SDLRenderer.set_logical_size (r : SDLRenderer) (lib : MockLib)
    (w h : Int) : Except SDLError Unit :=
  let _ := SDL_RenderSetLogicalSize lib r.m_renderer w h
  .ok ()

/-- SDLRenderer::set_draw_color (ttf_wrapper.hpp lines 414-416). -/
def SDLRenderer.set_draw_color (r : SDLRenderer) (lib : MockLib)
    (red g b a : Nat) : Except SDLError Unit :=
  let _ := SDL_SetRenderDrawColor lib r.m_renderer red g b a
  .ok ()

/-- SDLRenderer::draw_line (ttf_wrapper.hpp lines 421-423). -/
def SDLRenderer.draw_line (r : SDLRenderer) (lib : MockLib)
    (x1 y1 x2 y2 : Int) : Except SDLError Unit :=
  let _ := SDL_RenderDrawLine lib r.m_renderer x1 y1 x2 y2
  .ok ()

/-- SDLRenderer::draw_rect (ttf_wrapper.hpp lines 428-430). -/
def SDLRenderer.draw_rect (r : SDLRenderer) (lib : MockLib)
    (rect : Option SDL_Rect) : Except SDLError Unit :=
  let _ := SDL_RenderDrawRect lib r.m_renderer rect
  .ok ()

/-- SDLRenderer::set_viewport (ttf_wrapper.hpp lines 435-439): the one
renderer operation that validates its status, throwing when negative. -/
def SDLRenderer.set_viewport (r : SDLRenderer) (lib : MockLib)
    (rect : Option SDL_Rect) : Except SDLError Unit :=
  if SDL_RenderSetViewport lib r.m_renderer rect < 0 then
    .error ⟨.operationError,
      "Could\x27nt set viewport! SDL_Error: " ++ SDL_GetError lib⟩
  else
    .ok ()

/-- SDLRenderer::set_render_target (ttf_wrapper.hpp lines 444-446). -/
def SDLRenderer.set_render_target (r : SDLRenderer) (lib : MockLib)
    (texture : SDLTexture) : Except SDLError Unit :=
  let _ := SDL_SetRenderTarget lib r.m_renderer texture.m_texture
  .ok ()

/-- SDLRenderer::reset_render_target (ttf_wrapper.hpp lines 451-453): passes
a null texture handle. -/
def SDLRenderer.reset_render_target (r : SDLRenderer) (lib : MockLib) :
    Except SDLError Unit :=
  let _ := SDL_SetRenderTarget lib r.m_renderer 0
  .ok ()

/-- SDLRenderer::draw_texture (ttf_wrapper.hpp lines 458-462): forwards to
SDL_RenderCopy, discarding its status. -/
def SDLRenderer.draw_texture (r : SDLRenderer) (lib : MockLib)
    (texture : SDLTexture) (srcrect dstrect : Option SDL_Rect) :
    Except SDLError Unit :=
  let _ := SDL_RenderCopy lib r.m_renderer texture.m_texture srcrect dstrect
  .ok ()

/-- SDLWindow (ttf_wrapper.hpp lines 468-522): owns one SDL_Window handle;
move-only (defaulted move constructor and move assignment). -/
structure SDLWindow where
  m_window : Handle
  deriving Repr, DecidableEq

/-- SDLWindow::Deleter (ttf_wrapper.hpp lines 470-480). -/
def SDLWindow.Deleter (w : Handle) (fx : SideEffects) : SideEffects :=
  if w = 0 then fx else SDL_DestroyWindow w fx

def SDLWindow.destructor (w : SDLWindow) (fx : SideEffects) : SideEffects :=
  SDLWindow.Deleter w.m_window fx

/-- SDLWindow(SDLWindow&&) = default (ttf_wrapper.hpp line 496). -/
def SDLWindow.moveCtor (w : SDLWindow) : SDLWindow × SDLWindow :=
  (⟨w.m_window⟩, ⟨0⟩)

/-- SDLWindow constructor (ttf_wrapper.hpp lines 487-493): resets the member
to the SDL_CreateWindow result and throws if it is null. -/
def SDLWindow.construct (lib : MockLib) (title : String) (width height : Int)
    (flags : Nat) : Except SDLError SDLWindow :=
  let h := SDL_CreateWindow lib title width height flags
  if h = 0 then
    .error ⟨.resourceCreationError,
      "Window could not be created! SDL_Error: " ++ SDL_GetError lib⟩
  else
    .ok ⟨h⟩

/-- SDLWindow::get_surface (ttf_wrapper.hpp lines 503-505): wraps the
SDL_GetWindowSurface result unconditionally. -/
def SDLWindow.get_surface (w : SDLWindow) (lib : MockLib) : SDLSurface :=
  SDLSurface.mk (SDL_GetWindowSurface lib w.m_window)

/-- SDLWindow::update_surface (ttf_wrapper.hpp lines 511-513). -/
def SDLWindow.update_surface (w : SDLWindow) (lib : MockLib) :
    Except SDLError Unit :=
  let _ := SDL_UpdateWindowSurface lib w.m_window
  .ok ()

/-- SDLWindow::create_renderer (ttf_wrapper.hpp lines 519-521): wraps the
SDL_CreateRenderer result unconditionally, with no null check. -/
def SDLWindow.create_renderer (w : SDLWindow) (lib : MockLib) (index : Int)
    (flags : Nat) : SDLRenderer :=
  SDLRenderer.mk (SDL_CreateRenderer lib w.m_window index flags)

/-- TTFFont (part_000 lines 19-141): owns one TTF_Font handle. -/
structure TTFFont where
  m_font : Handle
  deriving Repr, DecidableEq

/-- TTFFont::Deleter (part_000 lines 22-32): returns without calling
TTF_CloseFont when the pointer is null. -/
def TTFFont.Deleter (t : Handle) (fx : SideEffects) : SideEffects :=
  if t = 0 then fx else TTF_CloseFont t fx

/-- Destruction of a TTFFont: the unique_ptr member applies the Deleter to
the held handle. -/
def TTFFont.destructor (f : TTFFont) (fx : SideEffects) : SideEffects :=
  TTFFont.Deleter f.m_font fx

/-- TTFFont::glyph_metrics (part_000 lines 55-69): throws when
TTF_GlyphMetrics is negative, else returns the struct the library filled. -/
def TTFFont.glyph_metrics (f : TTFFont) (lib : MockLib) (ch : Nat) :
    Except SDLError TTFFont.GlyphMetrics :=
  let (r, metrics) := TTF_GlyphMetrics lib f.m_font ch
  if r < 0 then
    .error ⟨.operationError,
      "Could not get metrics! TTF_Error: " ++ TTF_GetError lib⟩
  else
    .ok metrics

/-- TTFFont::render_glyph_solid (part_000 lines 79-87). -/
def TTFFont.render_glyph_solid (f : TTFFont) (lib : MockLib) (ch : Nat)
    (fg : SDL_Color) : Except SDLError SDLSurface :=
  let surface := TTF_RenderGlyph_Solid lib f.m_font ch fg
  if surface = 0 then
    .error ⟨.resourceCreationError,
      "Failure in glyph render! TTF_Error: " ++ TTF_GetError lib⟩
  else
    .ok ⟨surface⟩

/-- TTFFont::render_glyph_blended (part_000 lines 96-104). -/
def TTFFont.render_glyph_blended (f : TTFFont) (lib : MockLib) (ch : Nat)
    (fg : SDL_Color) : Except SDLError SDLSurface :=
  let surface := TTF_RenderGlyph_Blended lib f.m_font ch fg
  if surface = 0 then
    .error ⟨.resourceCreationError,
      "Failure in glyph render! TTF_Error: " ++ TTF_GetError lib⟩
  else
    .ok ⟨surface⟩

def TTFFont.line_skip (f : TTFFont) (lib : MockLib) : Int :=
  TTF_FontLineSkip lib f.m_font

def TTFFont.ascent (f : TTFFont) (lib : MockLib) : Int :=
  TTF_FontAscent lib f.m_font

def TTFFont.descent (f : TTFFont) (lib : MockLib) : Int :=
  TTF_FontDescent lib f.m_font

def TTFFont.height (f : TTFFont) (lib : MockLib) : Int :=
  TTF_FontHeight lib f.m_font

/-- SDLTTF::open (part_000 lines 170-178): a non-static member of the guard;
throws when TTF_OpenFont returns null, else wraps the returned handle.
Named openFont here because `open` is reserved in Lean. -/
def SDLTTF.openFont (_ : SDLTTF) (lib : MockLib) (file : String)
    (ptsize : Int) : Except SDLError TTFFont :=
  let font := TTF_OpenFont lib file ptsize
  if font = 0 then
    .error ⟨.resourceCreationError,
      "Could not load font! TTF_Error: " ++ TTF_GetError lib⟩
  else
    .ok ⟨font⟩

/- Declaration-level facts about the wrapper classes. -/

/-- The five owned-wrapper kinds of the library. -/
inductive WrapperKind where
  | surface
  | texture
  | renderer
  | window
  | font
  deriving Repr, DecidableEq

/-- Whether the class has a usable move constructor. SDLTexture,
SDLRenderer and SDLWindow declare `Type(Type&&) = default` (ttf_wrapper.hpp
lines 335, 372, 496). SDLSurface (lines 217-218) and TTFFont (part_000 lines
35-36) instead declare a private copy constructor and no move constructor;
a user-declared copy constructor suppresses the implicit move constructor,
so those two classes cannot be move-constructed. -/
def hasMoveConstructor : WrapperKind → Bool
  | .surface => false
  | .texture => true
  | .renderer => true
  | .window => true
  | .font => false

/- API reachability for the TTF subsystem. -/

/-- SDLTTF values obtainable through the public API: the default constructor
is the only public way to produce one, and it yields a value only when
TTF_Init succeeded. -/
def ObtainableGuard (lib : MockLib) (g : SDLTTF) : Prop :=
  (SDLTTF.construct lib SideEffects.empty).1 = .ok g

/-- TTFFont values produced by the font-opening path of the API: SDLTTF::open
is a non-static member, so it can only be called on an obtained guard. (The
raw-handle constructor TTFFont(TTF_Font*) wraps an existing handle and opens
nothing.) -/
def OpenedFont (lib : MockLib) (f : TTFFont) : Prop :=
  ∃ (g : SDLTTF) (file : String) (ptsize : Int),
    ObtainableGuard lib g ∧ SDLTTF.openFont g lib file ptsize = .ok f

/- Concrete mock configurations used in counterexamples and witnesses. -/

/-- Mock where renderer and texture creation return the null sentinel. -/
def libNullRendererTexture : MockLib :=
  { defaultLib with
      createRendererResult := 0
      createTextureResult := 0
      createTextureFromSurfaceResult := 0
      lastError := "out of memory" }

/-- Mock where core SDL initialization fails with last-error
"file not found". -/
def libSdlInitFails : MockLib :=
  { defaultLib with
      sdlInitResult := -1
      lastError := "file not found" }

/-- Mock where font opening returns null with last-error "file not found". -/
def libFontMissing : MockLib :=
  { defaultLib with
      openFontResult := 0
      lastError := "file not found" }

/-- Mock where every init and factory call fails and every status is a
failure, with a recognizable last-error string. -/
def libAllFail : MockLib :=
  { defaultLib with
      sdlInitResult := -1
      imgInitResult := 0
      ttfInitResult := -1
      openFontResult := 0
      loadBMPResult := 0
      imgLoadResult := 0
      createRGBSurfaceResult := 0
      createWindowResult := 0
      createRendererResult := 0
      createTextureResult := 0
      createTextureFromSurfaceResult := 0
      getWindowSurfaceResult := 0
      renderGlyphSolidResult := 0
      renderGlyphBlendedResult := 0
      glyphMetricsResult := -1
      lockSurfaceResult := -1
      setViewportResult := -1
      opStatusResult := -1
      lastError := "native diagnostic" }

/-- Mock for the font scenario: open succeeds with handle 7 and the glyph
metrics come back as minx 1, maxx 9, miny 0, maxy 12, advance 10. -/
def libFontScenario : MockLib :=
  { defaultLib with
      openFontResult := 7
      glyphMetricsOut := ⟨1, 9, 0, 12, 10⟩ }

/- Claim theorems. -/

/-- C1 counterexample: with the native library returning the null failure
sentinel, SDLWindow::create_renderer, SDLRenderer::create_texture and
SDLRenderer::create_texture_from_surface do not fail: each returns a wrapper
object holding the null handle, so a wrapper escapes to the caller and no
ResourceCreationError is raised (their return types are not fallible). -/
theorem create_renderer_and_texture_skip_validation :
    SDLWindow.create_renderer ⟨5⟩ libNullRendererTexture 0 0 = ⟨0⟩ ∧
    SDLRenderer.create_texture ⟨5⟩ libNullRendererTexture 0 0 0 0 = ⟨0⟩ ∧
    SDLRenderer.create_texture_from_surface ⟨5⟩ libNullRendererTexture ⟨1⟩ =
      ⟨0⟩ :=
  ⟨rfl, rfl, rfl⟩

/-- C1 (amended): the validating resource factories (font open, surface from
BMP file, surface from image file, surface from raw parameters, window
creation) return a wrapper holding exactly the handle the library returned on
a success sentinel, and fail with a ResourceCreationError on a null sentinel
with no wrapper escaping; renderer creation and texture creation, however,
perform no validation and wrap the library result unconditionally, even when
it is the null failure sentinel. -/
theorem factory_validation (lib : MockLib) (g : SDLTTF) (w : SDLWindow)
    (r : SDLRenderer) (s : SDLSurface) (file title : String)
    (ptsize width height depth access tw th index : Int)
    (flags fmt rm gm bm am : Nat) :
    (lib.openFontResult ≠ 0 →
      SDLTTF.openFont g lib file ptsize = .ok ⟨lib.openFontResult⟩) ∧
    (lib.openFontResult = 0 →
      SDLTTF.openFont g lib file ptsize = .error ⟨.resourceCreationError,
        "Could not load font! TTF_Error: " ++ lib.lastError⟩) ∧
    (lib.loadBMPResult ≠ 0 →
      SDLSurface.from_bmp lib file = .ok ⟨lib.loadBMPResult⟩) ∧
    (lib.loadBMPResult = 0 →
      SDLSurface.from_bmp lib file = .error ⟨.resourceCreationError,
        "SDL_LoadBMP failed! SDL_Error: " ++ lib.lastError⟩) ∧
    (lib.imgLoadResult ≠ 0 →
      SDLSurface.from_image lib file = .ok ⟨lib.imgLoadResult⟩) ∧
    (lib.imgLoadResult = 0 →
      SDLSurface.from_image lib file = .error ⟨.resourceCreationError,
        "IMG_Load failed! IMG_Error: " ++ lib.lastError⟩) ∧
    (lib.createRGBSurfaceResult ≠ 0 →
      SDLSurface.createRGBSurface lib flags width height depth rm gm bm am =
        .ok ⟨lib.createRGBSurfaceResult⟩) ∧
    (lib.createRGBSurfaceResult = 0 →
      SDLSurface.createRGBSurface lib flags width height depth rm gm bm am =
        .error ⟨.resourceCreationError,
          "SDL_CreateRGBSurface failed! SDL_Error: " ++ lib.lastError⟩) ∧
    (lib.createWindowResult ≠ 0 →
      SDLWindow.construct lib title width height flags =
        .ok ⟨lib.createWindowResult⟩) ∧
    (lib.createWindowResult = 0 →
      SDLWindow.construct lib title width height flags =
        .error ⟨.resourceCreationError,
          "Window could not be created! SDL_Error: " ++ lib.lastError⟩) ∧
    SDLWindow.create_renderer w lib index flags =
      ⟨lib.createRendererResult⟩ ∧
    SDLRenderer.create_texture r lib fmt access tw th =
      ⟨lib.createTextureResult⟩ ∧
    SDLRenderer.create_texture_from_surface r lib s =
      ⟨lib.createTextureFromSurfaceResult⟩ := by
  refine ⟨fun h => ?_, fun h => ?_, fun h => ?_, fun h => ?_, fun h => ?_,
    fun h => ?_, fun h => ?_, fun h => ?_, fun h => ?_, fun h => ?_,
    rfl, rfl, rfl⟩ <;>
  simp [SDLTTF.openFont, SDLSurface.from_bmp, SDLSurface.from_image,
    SDLSurface.createRGBSurface, SDLWindow.construct, TTF_OpenFont,
    SDL_LoadBMP, IMG_Load, SDL_CreateRGBSurface, SDL_CreateWindow,
    TTF_GetError, SDL_GetError, IMG_GetError, h]

/-- C1 witness: the factory contract evaluated on concrete mocks, success on
one side (font opened with handle 7) and failure on the other (null font
handle with last-error "file not found"). -/
theorem factory_validation_check :
    SDLTTF.openFont ⟨⟩ libFontScenario "font.ttf" 16 = .ok ⟨7⟩ ∧
    SDLTTF.openFont ⟨⟩ libFontMissing "font.ttf" 16 =
      .error ⟨.resourceCreationError,
        "Could not load font! TTF_Error: " ++ "file not found"⟩ := by
  constructor
  · exact (factory_validation libFontScenario ⟨⟩ ⟨1⟩ ⟨1⟩ ⟨1⟩ "font.ttf" "t"
      16 0 0 0 0 0 0 0 0 0 0 0 0 0).1 (by decide)
  · exact (factory_validation libFontMissing ⟨⟩ ⟨1⟩ ⟨1⟩ ⟨1⟩ "font.ttf" "t"
      16 0 0 0 0 0 0 0 0 0 0 0 0 0).2.1 rfl

/-- C2: for each guard (core SDL, image extension, TTF extension), a
construction that observes an init failure fails with the error and leaves
the side-effect state unchanged — in particular no shutdown call is made for
that instance (and, the constructor having thrown, no destructor ever runs
for it); a construction that observes init success yields the guard, and
destroying the guard performs exactly one paired shutdown call (the quit
counter rises by one and nothing else changes). -/
theorem guard_lifecycle (lib : MockLib) (fx : SideEffects) :
    (lib.sdlInitResult < 0 →
      SDL.construct lib fx =
        (.error ⟨.initializationError, "SDL uninitialized"⟩, fx)) ∧
    (0 ≤ lib.sdlInitResult →
      SDL.construct lib fx = (.ok ⟨⟩, fx) ∧
      SDL.destructor ⟨⟩ fx =
        { fx with sdlQuitCalls := fx.sdlQuitCalls + 1 }) ∧
    (lib.imgInitResult.land IMG_INIT_PNG = 0 →
      SDL_IMG.construct lib fx = (.error ⟨.initializationError,
        "IMG_Init failed! IMG_GetError: " ++ lib.lastError⟩, fx)) ∧
    (lib.imgInitResult.land IMG_INIT_PNG ≠ 0 →
      SDL_IMG.construct lib fx = (.ok ⟨⟩, fx) ∧
      SDL_IMG.destructor ⟨⟩ fx =
        { fx with imgQuitCalls := fx.imgQuitCalls + 1 }) ∧
    (lib.ttfInitResult < 0 →
      SDLTTF.construct lib fx = (.error ⟨.initializationError,
        "Can\x27t init TTF! TTF_Error: " ++ lib.lastError⟩, fx)) ∧
    (0 ≤ lib.ttfInitResult →
      SDLTTF.construct lib fx = (.ok ⟨⟩, fx) ∧
      SDLTTF.destructor ⟨⟩ fx =
        { fx with ttfQuitCalls := fx.ttfQuitCalls + 1 }) := by
  refine ⟨fun h => ?_, fun h => ⟨?_, rfl⟩, fun h => ?_, fun h => ⟨?_, rfl⟩,
    fun h => ?_, fun h => ⟨?_, rfl⟩⟩ <;>
  simp [SDL.construct, SDL_IMG.construct, SDLTTF.construct, SDL_Init,
    IMG_Init, TTF_Init, IMG_GetError, TTF_GetError, h, not_lt.mpr]

/-- C2 witness: the guard lifecycle evaluated on concrete mocks, failure on
one side (every init fails, state unchanged) and success on the other
(construction succeeds and destruction performs the single quit call). -/
theorem guard_lifecycle_check :
    SDL.construct libAllFail SideEffects.empty =
      (.error ⟨.initializationError, "SDL uninitialized"⟩,
        SideEffects.empty) ∧
    SDLTTF.construct defaultLib SideEffects.empty =
      (.ok ⟨⟩, SideEffects.empty) ∧
    SDLTTF.destructor ⟨⟩ SideEffects.empty =
      { SideEffects.empty with
          ttfQuitCalls := SideEffects.empty.ttfQuitCalls + 1 } := by
  refine ⟨(guard_lifecycle libAllFail SideEffects.empty).1 (by decide),
    ((guard_lifecycle defaultLib SideEffects.empty).2.2.2.2.2
      (by decide)).1,
    ((guard_lifecycle defaultLib SideEffects.empty).2.2.2.2.2
      (by decide)).2⟩

/-- C3 counterexample: the core SDL guard constructor raises an error whose
message is the bare fixed string "SDL uninitialized", discarding the native
last-error text: with last-error "file not found", the message does not
contain "file not found". -/
theorem sdl_init_message_drops_diagnostic :
    (SDL.construct libSdlInitFails SideEffects.empty).1 =
      .error ⟨.initializationError, "SDL uninitialized"⟩ ∧
    ¬ containsText "SDL uninitialized" "file not found" := by
  exact ⟨rfl, by decide⟩

/-- C3 (amended): every error raised in this layer except the core SDL
initialization failure carries a message that appends the native last-error
text to a fixed description of the attempted operation (so the message
contains the native diagnostic); the core SDL guard alone raises the bare
fixed string "SDL uninitialized". In particular, opening a font when the
library returns null with last-error "file not found" fails with a
ResourceCreationError whose message contains "file not found". -/
theorem error_messages_carry_diagnostic (lib : MockLib) (g : SDLTTF)
    (f : TTFFont) (s : SDLSurface) (r : SDLRenderer) (fx : SideEffects)
    (file title : String) (ptsize width height depth : Int)
    (ch flags rm gm bm am : Nat) (fg : SDL_Color) (rect : Option SDL_Rect) :
    (lib.imgInitResult.land IMG_INIT_PNG = 0 →
      (SDL_IMG.construct lib fx).1 = .error ⟨.initializationError,
        "IMG_Init failed! IMG_GetError: " ++ lib.lastError⟩) ∧
    (lib.ttfInitResult < 0 →
      (SDLTTF.construct lib fx).1 = .error ⟨.initializationError,
        "Can\x27t init TTF! TTF_Error: " ++ lib.lastError⟩) ∧
    (lib.openFontResult = 0 →
      SDLTTF.openFont g lib file ptsize = .error ⟨.resourceCreationError,
        "Could not load font! TTF_Error: " ++ lib.lastError⟩) ∧
    (lib.loadBMPResult = 0 →
      SDLSurface.from_bmp lib file = .error ⟨.resourceCreationError,
        "SDL_LoadBMP failed! SDL_Error: " ++ lib.lastError⟩) ∧
    (lib.imgLoadResult = 0 →
      SDLSurface.from_image lib file = .error ⟨.resourceCreationError,
        "IMG_Load failed! IMG_Error: " ++ lib.lastError⟩) ∧
    (lib.createRGBSurfaceResult = 0 →
      SDLSurface.createRGBSurface lib flags width height depth rm gm bm am =
        .error ⟨.resourceCreationError,
          "SDL_CreateRGBSurface failed! SDL_Error: " ++ lib.lastError⟩) ∧
    (lib.createWindowResult = 0 →
      SDLWindow.construct lib title width height flags =
        .error ⟨.resourceCreationError,
          "Window could not be created! SDL_Error: " ++ lib.lastError⟩) ∧
    (lib.glyphMetricsResult < 0 →
      TTFFont.glyph_metrics f lib ch = .error ⟨.operationError,
        "Could not get metrics! TTF_Error: " ++ lib.lastError⟩) ∧
    (lib.renderGlyphSolidResult = 0 →
      TTFFont.render_glyph_solid f lib ch fg = .error
        ⟨.resourceCreationError,
          "Failure in glyph render! TTF_Error: " ++ lib.lastError⟩) ∧
    (lib.renderGlyphBlendedResult = 0 →
      TTFFont.render_glyph_blended f lib ch fg = .error
        ⟨.resourceCreationError,
          "Failure in glyph render! TTF_Error: " ++ lib.lastError⟩) ∧
    (lib.lockSurfaceResult ≠ 0 →
      (SDLSurface.lock s lib fx).1 = .error ⟨.lockError,
        "SDL_LockSurface failed! SDL_Error: " ++ lib.lastError⟩) ∧
    (lib.setViewportResult < 0 →
      SDLRenderer.set_viewport r lib rect = .error ⟨.operationError,
        "Could\x27nt set viewport! SDL_Error: " ++ lib.lastError⟩) ∧
    (∀ d : String, containsText (d ++ lib.lastError) lib.lastError) ∧
    (SDLTTF.openFont g libFontMissing file ptsize =
      .error ⟨.resourceCreationError,
        "Could not load font! TTF_Error: " ++ "file not found"⟩ ∧
     containsText ("Could not load font! TTF_Error: " ++ "file not found")
       "file not found") := by
  refine ⟨fun h => ?_, fun h => ?_, fun h => ?_, fun h => ?_, fun h => ?_,
    fun h => ?_, fun h => ?_, fun h => ?_, fun h => ?_, fun h => ?_,
    fun h => ?_, fun h => ?_,
    fun d => containsText_of_append d lib.lastError,
    rfl, containsText_of_append _ _⟩ <;>
  simp [SDL_IMG.construct, SDLTTF.construct, SDLTTF.openFont,
    SDLSurface.from_bmp, SDLSurface.from_image, SDLSurface.createRGBSurface,
    SDLWindow.construct, TTFFont.glyph_metrics, TTFFont.render_glyph_solid,
    TTFFont.render_glyph_blended, SDLSurface.lock, SDLRenderer.set_viewport,
    IMG_Init, TTF_Init, TTF_OpenFont, SDL_LoadBMP, IMG_Load,
    SDL_CreateRGBSurface, SDL_CreateWindow, TTF_GlyphMetrics,
    TTF_RenderGlyph_Solid, TTF_RenderGlyph_Blended, SDL_LockSurface,
    SDL_RenderSetViewport, SDL_GetError, IMG_GetError, TTF_GetError, h]

/-- C3 witness: a failing glyph-metrics query on a mock whose last error is
"native diagnostic" produces an error message that appends exactly that
diagnostic to the fixed description. -/
theorem error_messages_carry_diagnostic_check :
    TTFFont.glyph_metrics ⟨1⟩ libAllFail 65 = .error ⟨.operationError,
      "Could not get metrics! TTF_Error: " ++ "native diagnostic"⟩ :=
  (error_messages_carry_diagnostic libAllFail ⟨⟩ ⟨1⟩ ⟨1⟩ ⟨1⟩
    SideEffects.empty "f" "t" 0 0 0 0 65 0 0 0 0 0 ⟨0, 0, 0, 0⟩
    none).2.2.2.2.2.2.2.1 (by decide)

/-- C4: for each owned-wrapper type (surface, texture, renderer, window,
font), destroying a wrapper that holds the null handle leaves the side-effect
state unchanged (no destroy routine invoked), and destroying a wrapper with a
non-null handle invokes the subsystem destroy routine on exactly that
handle. -/
theorem null_handle_destruction (fx : SideEffects) (h : Handle)
    (hn : h ≠ 0) :
    SDLSurface.destructor ⟨0⟩ fx = fx ∧
    SDLTexture.destructor ⟨0⟩ fx = fx ∧
    SDLRenderer.destructor ⟨0⟩ fx = fx ∧
    SDLWindow.destructor ⟨0⟩ fx = fx ∧
    TTFFont.destructor ⟨0⟩ fx = fx ∧
    SDLSurface.destructor ⟨h⟩ fx =
      { fx with freeSurfaceCalls := fx.freeSurfaceCalls ++ [h] } ∧
    SDLTexture.destructor ⟨h⟩ fx =
      { fx with destroyTextureCalls := fx.destroyTextureCalls ++ [h] } ∧
    SDLRenderer.destructor ⟨h⟩ fx =
      { fx with destroyRendererCalls := fx.destroyRendererCalls ++ [h] } ∧
    SDLWindow.destructor ⟨h⟩ fx =
      { fx with destroyWindowCalls := fx.destroyWindowCalls ++ [h] } ∧
    TTFFont.destructor ⟨h⟩ fx =
      { fx with closeFontCalls := fx.closeFontCalls ++ [h] } := by
  refine ⟨rfl, rfl, rfl, rfl, rfl, ?_, ?_, ?_, ?_, ?_⟩ <;>
  simp [SDLSurface.destructor, SDLTexture.destructor,
    SDLRenderer.destructor, SDLWindow.destructor, TTFFont.destructor,
    SDLSurface.Deleter, SDLTexture.Deleter, SDLRenderer.Deleter,
    SDLWindow.Deleter, TTFFont.Deleter, SDL_FreeSurface,
    SDL_DestroyTexture, SDL_DestroyRenderer, SDL_DestroyWindow,
    TTF_CloseFont, hn]

/-- C4 witness: destroying null-handle wrappers changes nothing, and
destroying a surface holding handle 9 frees exactly handle 9. -/
theorem null_handle_destruction_check :
    SDLSurface.destructor ⟨0⟩ SideEffects.empty = SideEffects.empty ∧
    SDLSurface.destructor ⟨9⟩ SideEffects.empty =
      { SideEffects.empty with freeSurfaceCalls :=
          SideEffects.empty.freeSurfaceCalls ++ [9] } :=
  ⟨(null_handle_destruction SideEffects.empty 9 (by decide)).1,
   (null_handle_destruction SideEffects.empty 9
     (by decide)).2.2.2.2.2.1⟩

/-- C5 counterexample: the claim quantifies over all five owned-wrapper
types, but SDLSurface and TTFFont have no move constructor at all — each
declares a private copy constructor, which suppresses the implicit move
constructor — so move-construction does not exist for those two types and
the claimed property fails for them. -/
theorem surface_and_font_not_movable :
    hasMoveConstructor .surface = false ∧
    hasMoveConstructor .font = false :=
  ⟨rfl, rfl⟩

/-- C5 (amended): for the move-constructible owned-wrapper types (texture,
renderer, window), move-construction leaves the source holding the null
handle, so destroying the source triggers no release call, and destroying
the destination triggers exactly one release call for the transferred
handle; surface and font are not move-constructible. -/
theorem move_transfers_ownership (h : Handle) (fx : SideEffects)
    (hn : h ≠ 0) :
    hasMoveConstructor .texture = true ∧
    hasMoveConstructor .renderer = true ∧
    hasMoveConstructor .window = true ∧
    (SDLTexture.moveCtor ⟨h⟩).2 = ⟨0⟩ ∧
    SDLTexture.destructor (SDLTexture.moveCtor ⟨h⟩).2 fx = fx ∧
    SDLTexture.destructor (SDLTexture.moveCtor ⟨h⟩).1 fx =
      { fx with destroyTextureCalls := fx.destroyTextureCalls ++ [h] } ∧
    (SDLRenderer.moveCtor ⟨h⟩).2 = ⟨0⟩ ∧
    SDLRenderer.destructor (SDLRenderer.moveCtor ⟨h⟩).2 fx = fx ∧
    SDLRenderer.destructor (SDLRenderer.moveCtor ⟨h⟩).1 fx =
      { fx with destroyRendererCalls := fx.destroyRendererCalls ++ [h] } ∧
    (SDLWindow.moveCtor ⟨h⟩).2 = ⟨0⟩ ∧
    SDLWindow.destructor (SDLWindow.moveCtor ⟨h⟩).2 fx = fx ∧
    SDLWindow.destructor (SDLWindow.moveCtor ⟨h⟩).1 fx =
      { fx with destroyWindowCalls := fx.destroyWindowCalls ++ [h] } := by
  refine ⟨rfl, rfl, rfl, rfl, rfl, ?_, rfl, rfl, ?_, rfl, rfl, ?_⟩ <;>
  simp [SDLTexture.destructor, SDLRenderer.destructor, SDLWindow.destructor,
    SDLTexture.moveCtor, SDLRenderer.moveCtor, SDLWindow.moveCtor,
    SDLTexture.Deleter, SDLRenderer.Deleter, SDLWindow.Deleter,
    SDL_DestroyTexture, SDL_DestroyRenderer, SDL_DestroyWindow, hn]

/-- C5 witness: moving a texture that holds handle 4 and destroying both
halves: the source frees nothing, the destination destroys exactly
handle 4. -/
theorem move_transfers_ownership_check :
    SDLTexture.destructor (SDLTexture.moveCtor ⟨4⟩).2 SideEffects.empty =
      SideEffects.empty ∧
    SDLTexture.destructor (SDLTexture.moveCtor ⟨4⟩).1 SideEffects.empty =
      { SideEffects.empty with destroyTextureCalls :=
          SideEffects.empty.destroyTextureCalls ++ [4] } :=
  ⟨(move_transfers_ownership 4 SideEffects.empty (by decide)).2.2.2.2.1,
   (move_transfers_ownership 4 SideEffects.empty
     (by decide)).2.2.2.2.2.1⟩

/-- C6: lock fails with a LockError exactly when the native lock call reports
a nonzero status, and under the same condition try_lock returns false while
raising nothing (its return type is a plain boolean, no error channel); on a
zero status lock succeeds and try_lock returns true; both perform the native
lock attempt on the held handle as a side effect; unlock forwards
unconditionally and cannot fail (it is a total function with no error
channel). -/
theorem surface_locking (s : SDLSurface) (lib : MockLib)
    (fx : SideEffects) :
    (lib.lockSurfaceResult ≠ 0 →
      (SDLSurface.lock s lib fx).1 = .error ⟨.lockError,
        "SDL_LockSurface failed! SDL_Error: " ++ lib.lastError⟩ ∧
      (SDLSurface.try_lock s lib fx).1 = false) ∧
    (lib.lockSurfaceResult = 0 →
      (SDLSurface.lock s lib fx).1 = .ok () ∧
      (SDLSurface.try_lock s lib fx).1 = true) ∧
    (SDLSurface.lock s lib fx).2 =
      { fx with lockSurfaceCalls :=
          fx.lockSurfaceCalls ++ [s.m_surface] } ∧
    (SDLSurface.try_lock s lib fx).2 =
      { fx with lockSurfaceCalls :=
          fx.lockSurfaceCalls ++ [s.m_surface] } ∧
    SDLSurface.unlock s fx =
      { fx with unlockSurfaceCalls :=
          fx.unlockSurfaceCalls ++ [s.m_surface] } := by
  refine ⟨fun h => ?_, fun h => ?_, ?_, rfl, rfl⟩
  · simp [SDLSurface.lock, SDLSurface.try_lock, SDL_LockSurface,
      SDL_GetError, h]
  · simp [SDLSurface.lock, SDLSurface.try_lock, SDL_LockSurface,
      SDL_GetError, h]
  · rcases eq_or_ne lib.lockSurfaceResult 0 with h | h <;>
      simp [SDLSurface.lock, SDL_LockSurface, h]

/-- C6 witness: on a mock whose lock call reports failure, try_lock returns
false (no error) and lock fails with the LockError; on the default mock
try_lock returns true. -/
theorem surface_locking_check :
    (SDLSurface.try_lock ⟨3⟩ libAllFail SideEffects.empty).1 = false ∧
    (SDLSurface.lock ⟨3⟩ libAllFail SideEffects.empty).1 =
      .error ⟨.lockError,
        "SDL_LockSurface failed! SDL_Error: " ++ "native diagnostic"⟩ ∧
    (SDLSurface.try_lock ⟨3⟩ defaultLib SideEffects.empty).1 = true :=
  ⟨((surface_locking ⟨3⟩ libAllFail SideEffects.empty).1 (by decide)).2,
   ((surface_locking ⟨3⟩ libAllFail SideEffects.empty).1 (by decide)).1,
   ((surface_locking ⟨3⟩ defaultLib SideEffects.empty).2.1 (by decide)).2⟩

/-- C7: opening a font when the library returns a non-null handle yields a
wrapper holding exactly that handle, and a glyph-metrics query whose native
call succeeds returns exactly the struct the library filled; in particular,
on the scenario mock (font handle 7, metrics minx 1, maxx 9, miny 0,
maxy 12, advance 10) the opened wrapper holds 7 and the query returns that
exact struct. -/
theorem font_open_and_glyph_metrics (lib : MockLib) (g : SDLTTF)
    (file : String) (ptsize : Int) (ch : Nat)
    (hopen : lib.openFontResult ≠ 0) (hmet : 0 ≤ lib.glyphMetricsResult) :
    SDLTTF.openFont g lib file ptsize = .ok ⟨lib.openFontResult⟩ ∧
    TTFFont.glyph_metrics ⟨lib.openFontResult⟩ lib ch =
      .ok lib.glyphMetricsOut ∧
    SDLTTF.openFont g libFontScenario file ptsize = .ok ⟨7⟩ ∧
    TTFFont.glyph_metrics ⟨7⟩ libFontScenario ch =
      .ok ⟨1, 9, 0, 12, 10⟩ := by
  refine ⟨?_, ?_, rfl, rfl⟩
  · simp [SDLTTF.openFont, TTF_OpenFont, hopen]
  · simp [TTFFont.glyph_metrics, TTF_GlyphMetrics, not_lt.mpr hmet]

/-- C7 witness: the scenario conjuncts instantiated on the scenario mock. -/
theorem font_open_and_glyph_metrics_check :
    SDLTTF.openFont ⟨⟩ libFontScenario "font.ttf" 16 = .ok ⟨7⟩ ∧
    TTFFont.glyph_metrics ⟨7⟩ libFontScenario 65 =
      .ok ⟨1, 9, 0, 12, 10⟩ :=
  ⟨(font_open_and_glyph_metrics libFontScenario ⟨⟩ "font.ttf" 16 65
      (by decide) (by decide)).1,
   (font_open_and_glyph_metrics libFontScenario ⟨⟩ "font.ttf" 16 65
      (by decide) (by decide)).2.1⟩

/-- C8: any font produced by the font-opening path of the API was opened
through a guard value, and a guard value is only obtainable when TTF
initialization reported success — so the guard construction succeeded, and
the font holds the (non-null) handle the library returned. Opening a font
before a successful guard construction is impossible: with a failing
TTF_Init no guard value, and hence no opened font, is obtainable. -/
theorem opened_font_requires_guard (lib : MockLib) (f : TTFFont)
    (hf : OpenedFont lib f) :
    0 ≤ lib.ttfInitResult ∧
    (SDLTTF.construct lib SideEffects.empty).1 = .ok ⟨⟩ ∧
    f.m_font = lib.openFontResult ∧
    f.m_font ≠ 0 := by
  obtain ⟨g, file, ptsize, hcon, hopen⟩ := hf
  unfold ObtainableGuard at hcon
  have hinit : ¬ lib.ttfInitResult < 0 := by
    intro hlt
    rw [SDLTTF.construct, TTF_Init, if_pos hlt] at hcon
    exact Except.noConfusion hcon
  have hfont : ¬ lib.openFontResult = 0 := by
    intro h0
    rw [SDLTTF.openFont, TTF_OpenFont] at hopen
    rw [if_pos h0] at hopen
    exact Except.noConfusion hopen
  refine ⟨not_lt.mp hinit, ?_, ?_, ?_⟩
  · rw [SDLTTF.construct, TTF_Init, if_neg hinit]
  · rw [SDLTTF.openFont, TTF_OpenFont, if_neg hfont] at hopen
    cases hopen
    rfl
  · rw [SDLTTF.openFont, TTF_OpenFont, if_neg hfont] at hopen
    cases hopen
    exact hfont

/-- C8 witness: on the scenario mock a font is obtained through the open
path (guard constructed, then open succeeds with handle 7), and the theorem
yields the successful guard construction and the non-null held handle. -/
theorem opened_font_requires_guard_check :
    0 ≤ libFontScenario.ttfInitResult ∧
    (SDLTTF.construct libFontScenario SideEffects.empty).1 = .ok ⟨⟩ ∧
    (7 : Handle) = libFontScenario.openFontResult ∧ (7 : Handle) ≠ 0 :=
  opened_font_requires_guard libFontScenario ⟨7⟩
    ⟨⟨⟩, "font.ttf", 16, rfl, rfl⟩

/-- C9: the forwarding operations clear, present, set_draw_color, draw_line,
draw_rect, draw_texture, set_render_target, reset_render_target,
set_logical_size, blit_to and query discard the native status entirely: for
every mock configuration (including one whose status results are failures)
they return normally — the void ones with ok, query with the values the
library wrote — and never produce an error; among the renderer operations
only set_viewport validates its result, failing exactly when it is
negative. -/
theorem forwarding_discards_status (lib : MockLib) (r : SDLRenderer)
    (t : SDLTexture) (s d : SDLSurface) (red g b a : Nat)
    (x1 y1 x2 y2 wi he : Int) (rect srcrect dstrect : Option SDL_Rect) :
    SDLRenderer.clear r lib = .ok () ∧
    SDLRenderer.present r lib = .ok () ∧
    SDLRenderer.set_draw_color r lib red g b a = .ok () ∧
    SDLRenderer.draw_line r lib x1 y1 x2 y2 = .ok () ∧
    SDLRenderer.draw_rect r lib rect = .ok () ∧
    SDLRenderer.draw_texture r lib t srcrect dstrect = .ok () ∧
    SDLRenderer.set_render_target r lib t = .ok () ∧
    SDLRenderer.reset_render_target r lib = .ok () ∧
    SDLRenderer.set_logical_size r lib wi he = .ok () ∧
    SDLSurface.blit_to s lib d = .ok () ∧
    SDLTexture.query t lib =
      (lib.queryFormat, lib.queryAccess, lib.queryW, lib.queryH) ∧
    (lib.setViewportResult < 0 →
      SDLRenderer.set_viewport r lib rect = .error ⟨.operationError,
        "Could\x27nt set viewport! SDL_Error: " ++ lib.lastError⟩) ∧
    (0 ≤ lib.setViewportResult →
      SDLRenderer.set_viewport r lib rect = .ok ()) := by
  refine ⟨rfl, rfl, rfl, rfl, rfl, rfl, rfl, rfl, rfl, rfl, rfl,
    fun h => ?_, fun h => ?_⟩ <;>
  simp [SDLRenderer.set_viewport, SDL_RenderSetViewport, SDL_GetError, h,
    not_lt.mpr]

/-- C9 witness: on the mock where every status is a failure, clear and
draw_texture still return ok while set_viewport fails. -/
theorem forwarding_discards_status_check :
    SDLRenderer.clear ⟨2⟩ libAllFail = .ok () ∧
    SDLRenderer.draw_texture ⟨2⟩ libAllFail ⟨3⟩ none none = .ok () ∧
    SDLRenderer.set_viewport ⟨2⟩ libAllFail none =
      .error ⟨.operationError,
        "Could\x27nt set viewport! SDL_Error: " ++ "native diagnostic"⟩ :=
  ⟨(forwarding_discards_status libAllFail ⟨2⟩ ⟨3⟩ ⟨1⟩ ⟨1⟩ 0 0 0 0
      0 0 0 0 0 0 none none none).1,
   (forwarding_discards_status libAllFail ⟨2⟩ ⟨3⟩ ⟨1⟩ ⟨1⟩ 0 0 0 0
      0 0 0 0 0 0 none none none).2.2.2.2.2.1,
   (forwarding_discards_status libAllFail ⟨2⟩ ⟨3⟩ ⟨1⟩ ⟨1⟩ 0 0 0 0
      0 0 0 0 0 0 none none none).2.2.2.2.2.2.2.2.2.2.2.1 (by decide)⟩

/-- C10: SDLSurface::get returns the owned native handle unchanged — it is a
pure projection of the wrapper, transferring nothing — and the wrapper
destructor afterwards still performs the single release of exactly that
handle. -/
theorem get_preserves_ownership (s : SDLSurface) (fx : SideEffects)
    (hn : s.m_surface ≠ 0) :
    SDLSurface.get s = s.m_surface ∧
    SDLSurface.destructor s fx =
      { fx with freeSurfaceCalls :=
          fx.freeSurfaceCalls ++ [SDLSurface.get s] } := by
  refine ⟨rfl, ?_⟩
  simp [SDLSurface.destructor, SDLSurface.Deleter, SDLSurface.get,
    SDL_FreeSurface, hn]

/-- C10 witness: a surface holding handle 6 — get returns 6 and destruction
afterwards frees exactly handle 6 once. -/
theorem get_preserves_ownership_check :
    SDLSurface.get ⟨6⟩ = 6 ∧
    SDLSurface.destructor ⟨6⟩ SideEffects.empty =
      { SideEffects.empty with freeSurfaceCalls :=
          SideEffects.empty.freeSurfaceCalls ++ [SDLSurface.get ⟨6⟩] } :=
  get_preserves_ownership ⟨6⟩ SideEffects.empty (by decide)

end SdlWrapper
